import Mathlib

/-!
Verification development for the PaperPal Translator repository
(`src/services/geminiService.ts`, `src/components/TranslationPanel.tsx`,
`src/components/PDFViewer.tsx`).  Every definition below is a shallow
embedding of a function of the source; theorems settle the frozen claims
about the retry/backoff helper, the history-reconciliation pipeline,
the box-capture threshold and the live-session controller.
-/

/-- Model of a thrown JavaScript error value as used by the source:
it carries a `message` string and an optional numeric `status`
(`error.message` / `error.status` in `geminiService.ts`). -/
structure JsError where
  message : String
  status : Option Nat
deriving DecidableEq, Repr

/-- Boolean prefix test on character lists (`==` on each character). -/
def isPrefixChars : List Char → List Char → Bool
  | [], _ => true
  | _ :: _, [] => false
  | a :: as, b :: bs => a == b && isPrefixChars as bs

/-- Boolean containment test on character lists: does `pat` occur as a
contiguous run somewhere in the second list? -/
def isInfixChars (pat : List Char) : List Char → Bool
  | [] => isPrefixChars pat []
  | b :: bs => isPrefixChars pat (b :: bs) || isInfixChars pat bs

/-- Embedding of JavaScript `s.includes(pat)`: substring containment. -/
def strContains (s pat : String) : Bool := isInfixChars pat.data s.data

/-- `DecidableEq` for `Except`, needed to evaluate concrete equalities on
results of the embedded fallible operations. -/
instance {e a : Type} [DecidableEq e] [DecidableEq a] : DecidableEq (Except e a) := fun x y =>
  match x, y with
  | Except.ok u, Except.ok v =>
    if h : u = v then isTrue (by rw [h]) else isFalse (fun hh => by cases hh; exact h rfl)
  | Except.error u, Except.error v =>
    if h : u = v then isTrue (by rw [h]) else isFalse (fun hh => by cases hh; exact h rfl)
  | Except.ok _, Except.error _ => isFalse (fun hh => by cases hh)
  | Except.error _, Except.ok _ => isFalse (fun hh => by cases hh)

/-- Embedding of the quota/rate-limit classifier of
`geminiService.ts:19-22` (`retryOperation`'s `isQuotaError`):
the message contains `'429'`, `'quota'` or `'exhausted'`, or the error
carries `status === 429`. -/
def isQuotaError (err : JsError) : Bool :=
  strContains err.message "429" || strContains err.message "quota" ||
  strContains err.message "exhausted" || err.status == some 429

/-- Observable outcome of one call to the retry wrapper: the final
result, the list of back-off waits performed (in order, milliseconds),
and how many times the wrapped operation was invoked. -/
structure RetryTrace (A : Type) where
  result : Except JsError A
  waits : List Nat
  attempts : Nat
deriving Repr, DecidableEq

/-- Embedding of `retryOperation` (`geminiService.ts:14-31`).  The wrapped
asynchronous operation is modelled as a function from the attempt index
(0-based) to its outcome on that invocation.  On success the value is
returned; on a failure that `isQuotaError` classifies as transient and
with `retries > 0`, the code waits `delay` and recurses with
`retries - 1` and `delay * 2`; otherwise the error is rethrown. -/
def retryOperation {A : Type} (operation : Nat → Except JsError A)
    (attempt retries delay : Nat) : RetryTrace A :=
  match retries, operation attempt with
  | _, Except.ok v => ⟨Except.ok v, [], 1⟩
  | 0, Except.error err => ⟨Except.error err, [], 1⟩
  | r + 1, Except.error err =>
    if isQuotaError err then
      let t := retryOperation operation (attempt + 1) r (delay * 2)
      ⟨t.result, delay :: t.waits, t.attempts + 1⟩
    else ⟨Except.error err, [], 1⟩

/-- An operation that fails with `err` on its first `k` invocations and
then succeeds with `v` forever after. -/
def failNTimes {A : Type} (k : Nat) (err : JsError) (v : A) (n : Nat) : Except JsError A :=
  if n < k then Except.error err else Except.ok v

/-- The geometric wait schedule: `m` waits starting at `delay`, doubling
each time. -/
def geomWaits (delay : Nat) : Nat → List Nat
  | 0 => []
  | m + 1 => delay :: geomWaits (delay * 2) m

theorem retryOperation_ok {A : Type} (operation : Nat → Except JsError A)
    (attempt retries delay : Nat) (v : A)
    (h : operation attempt = Except.ok v) :
    retryOperation operation attempt retries delay = ⟨Except.ok v, [], 1⟩ := by
  cases retries <;> (unfold retryOperation; rw [h])

theorem retryOperation_transient {A : Type} (operation : Nat → Except JsError A)
    (attempt r delay : Nat) (err : JsError)
    (h : operation attempt = Except.error err) (hq : isQuotaError err = true) :
    retryOperation operation attempt (r + 1) delay =
      ⟨(retryOperation operation (attempt + 1) r (delay * 2)).result,
       delay :: (retryOperation operation (attempt + 1) r (delay * 2)).waits,
       (retryOperation operation (attempt + 1) r (delay * 2)).attempts + 1⟩ := by
  conv_lhs => unfold retryOperation
  rw [h]
  simp [hq]

theorem retryOperation_terminal {A : Type} (operation : Nat → Except JsError A)
    (attempt retries delay : Nat) (err : JsError)
    (h : operation attempt = Except.error err) (hq : isQuotaError err = false) :
    retryOperation operation attempt retries delay = ⟨Except.error err, [], 1⟩ := by
  cases retries with
  | zero =>
    unfold retryOperation
    rw [h]
  | succ n =>
    conv_lhs => unfold retryOperation
    rw [h]
    simp [hq]

theorem retryOperation_exhausted {A : Type} (operation : Nat → Except JsError A)
    (attempt delay : Nat) (err : JsError)
    (h : operation attempt = Except.error err) :
    retryOperation operation attempt 0 delay = ⟨Except.error err, [], 1⟩ := by
  unfold retryOperation
  rw [h]

theorem geomWaits_length (delay m : Nat) : (geomWaits delay m).length = m := by
  induction m generalizing delay with
  | zero => rfl
  | succ n ih => simp [geomWaits, ih]

theorem geomWaits_sum (delay m : Nat) : (geomWaits delay m).sum = delay * (2 ^ m - 1) := by
  induction m generalizing delay with
  | zero => simp [geomWaits]
  | succ n ih =>
    have h1 : 1 ≤ 2 ^ n := Nat.one_le_two_pow
    obtain ⟨y, hy⟩ := Nat.exists_eq_add_of_le h1
    simp only [geomWaits, List.sum_cons, ih, pow_succ, hy]
    have h2 : (1 + y) * 2 - 1 = 1 + 2 * y := by omega
    have h3 : 1 + y - 1 = y := by omega
    rw [h2, h3]
    ring

theorem retry_failNTimes_success {A : Type} (err : JsError) (v : A)
    (hq : isQuotaError err = true) :
    ∀ m r attempt delay k, k = attempt + m → m ≤ r →
      retryOperation (failNTimes k err v) attempt r delay =
        ⟨Except.ok v, geomWaits delay m, m + 1⟩ := by
  intro m
  induction m with
  | zero =>
    intro r attempt delay k hk _
    apply retryOperation_ok
    simp [failNTimes]
    omega
  | succ n ih =>
    intro r attempt delay k hk hle
    obtain ⟨r', rfl⟩ : ∃ r', r = r' + 1 := ⟨r - 1, by omega⟩
    have hop : failNTimes k err v attempt = Except.error err := by
      simp [failNTimes]
      omega
    rw [retryOperation_transient _ _ _ _ _ hop hq,
        ih r' (attempt + 1) (delay * 2) k (by omega) (by omega)]
    simp [geomWaits]

theorem retry_failNTimes_exhaust {A : Type} (err : JsError) (v : A)
    (hq : isQuotaError err = true) :
    ∀ r attempt delay k, attempt + r < k →
      retryOperation (failNTimes k err v) attempt r delay =
        ⟨Except.error err, geomWaits delay r, r + 1⟩ := by
  intro r
  induction r with
  | zero =>
    intro attempt delay k hk
    apply retryOperation_exhausted
    simp [failNTimes]
    omega
  | succ n ih =>
    intro attempt delay k hk
    have hop : failNTimes k err v attempt = Except.error err := by
      simp [failNTimes]
      omega
    rw [retryOperation_transient _ _ _ _ _ hop hq,
        ih (attempt + 1) (delay * 2) k (by omega)]
    simp [geomWaits]

/-- Claim C1 counterexample: with `maxRetries = 3` and `initialDelay = 2000`,
an operation that fails with a transient error exactly `k = 3` times and
then succeeds makes the wrapper resolve with the success value after the
three waits 2000, 4000, 8000 — the claim states that every `k ≥ maxRetries`
rejects, but the code performs one initial attempt plus `maxRetries`
retries, so the fourth attempt succeeds. -/
theorem C1_retry_boundary_counterexample :
    retryOperation (failNTimes 3 (JsError.mk "quota" none) (0 : Nat)) 0 3 2000 =
      ⟨Except.ok 0, [2000, 4000, 8000], 4⟩ := by decide

/-- Claim C1 (amended): for a no-argument operation failing transiently
exactly `k` times then succeeding, the retry wrapper called with
`maxRetries = 3`, `initialDelay = 2000` resolves with the success value
after a total wait of `2000 * (2^0 + ... + 2^(k-1)) = 2000 * (2^k - 1)`
whenever `k ≤ maxRetries`, and rejects with the last transient error after
exactly `maxRetries` waits whenever `k > maxRetries`. -/
theorem C1_retry_backoff (k : Nat) (err : JsError) (v : Nat)
    (hq : isQuotaError err = true) :
    (k ≤ 3 →
      retryOperation (failNTimes k err v) 0 3 2000 =
        ⟨Except.ok v, geomWaits 2000 k, k + 1⟩ ∧
      (geomWaits 2000 k).sum = 2000 * (2 ^ k - 1)) ∧
    (3 < k →
      retryOperation (failNTimes k err v) 0 3 2000 =
        ⟨Except.error err, geomWaits 2000 3, 4⟩ ∧
      (geomWaits 2000 3).length = 3) := by
  constructor
  · intro hk
    exact ⟨retry_failNTimes_success err v hq k 3 0 2000 k (by omega) hk,
           geomWaits_sum 2000 k⟩
  · intro hk
    exact ⟨retry_failNTimes_exhaust err v hq 3 0 2000 k (by omega),
           geomWaits_length 2000 3⟩

/-- Concrete instance of `C1_retry_backoff` at `k = 2`. -/
theorem C1_retry_backoff_witness :
    isQuotaError (JsError.mk "quota" none) = true ∧
    (((2 : Nat) ≤ 3 →
      retryOperation (failNTimes 2 (JsError.mk "quota" none) (5 : Nat)) 0 3 2000 =
        ⟨Except.ok 5, geomWaits 2000 2, 2 + 1⟩ ∧
      (geomWaits 2000 2).sum = 2000 * (2 ^ 2 - 1)) ∧
    (3 < (2 : Nat) →
      retryOperation (failNTimes 2 (JsError.mk "quota" none) (5 : Nat)) 0 3 2000 =
        ⟨Except.error (JsError.mk "quota" none), geomWaits 2000 3, 4⟩ ∧
      (geomWaits 2000 3).length = 3)) :=
  ⟨by decide, C1_retry_backoff 2 (JsError.mk "quota" none) 5 (by decide)⟩

/-- Claim C2: an operation whose first attempt fails with a terminal
(non rate-limit) error makes the retry wrapper reject immediately with that
error after zero waits and exactly one invocation of the operation; and in
general any run of the wrapper that performed at least one wait did so on a
first-attempt failure classified transient by the 429/quota test, so only
transient failures are ever retried. -/
theorem C2_terminal_no_retry {A : Type} (operation : Nat → Except JsError A)
    (attempt retries delay : Nat) (err : JsError)
    (hop : operation attempt = Except.error err)
    (hterm : isQuotaError err = false) :
    retryOperation operation attempt retries delay = ⟨Except.error err, [], 1⟩ ∧
    (∀ (op2 : Nat → Except JsError A) (a r d : Nat),
      (retryOperation op2 a r d).waits ≠ [] →
      ∃ e2, op2 a = Except.error e2 ∧ isQuotaError e2 = true) := by
  refine ⟨retryOperation_terminal operation attempt retries delay err hop hterm, ?_⟩
  intro op2 a r d hw
  cases hcase : op2 a with
  | ok v =>
    rw [retryOperation_ok op2 a r d v hcase] at hw
    simp at hw
  | error e2 =>
    cases hb : isQuotaError e2 with
    | true => exact ⟨e2, rfl, hb⟩
    | false =>
      rw [retryOperation_terminal op2 a r d e2 hcase hb] at hw
      simp at hw

/-- Concrete instance of `C2_terminal_no_retry`: a one-shot terminal
failure (`"bad request"`) is rejected with zero waits and one attempt. -/
theorem C2_terminal_no_retry_witness :
    (fun _ : Nat => (Except.error (JsError.mk "bad request" none) : Except JsError Nat)) 0 =
      Except.error (JsError.mk "bad request" none) ∧
    isQuotaError (JsError.mk "bad request" none) = false ∧
    (retryOperation
        (fun _ : Nat => (Except.error (JsError.mk "bad request" none) : Except JsError Nat))
        0 3 2000 =
      ⟨Except.error (JsError.mk "bad request" none), [], 1⟩ ∧
    (∀ (op2 : Nat → Except JsError Nat) (a r d : Nat),
      (retryOperation op2 a r d).waits ≠ [] →
      ∃ e2, op2 a = Except.error e2 ∧ isQuotaError e2 = true)) :=
  ⟨rfl, by decide,
   C2_terminal_no_retry (fun _ : Nat => Except.error (JsError.mk "bad request" none))
     0 3 2000 (JsError.mk "bad request" none) rfl (by decide)⟩

/-- Selection artifact kind, the `'text' | 'image'` tag of `SelectionData`. -/
inductive SelType
  | text
  | image
deriving DecidableEq, Repr

/-- Embedding of `SelectionData` as produced by `PDFViewer.tsx`
(`handleImageCapture` / `handleTextSelect`) and consumed by
`TranslationPanel.tsx`: a kind tag, the payload string (selected text or
encoded image), and the numeric id (`Date.now()`). -/
structure SelectionData where
  type : SelType
  content : String
  id : Nat
deriving DecidableEq, Repr

/-- Embedding of a `TranslationResult` history record as used by
`TranslationPanel.tsx`.  The source's optional `explanation` field is
called `explanationText` here; `searchSources` keeps (title, uri) pairs. -/
structure TranslationResult where
  id : Nat
  type : SelType
  originalText : String
  translatedText : String
  imageUrl : Option String
  timestamp : Nat
  explanationText : Option String
  searchSources : Option (List (String × String))
deriving DecidableEq, Repr

/-- The in-place update pattern of `TranslationPanel.tsx`
(`setHistory(prev => prev.map(item => item.id === id ? changed : item))`),
the store's `updateById`: apply `f` to every record whose id matches the
target, keep every other record unchanged. -/
def updateById (targetId : Nat) (f : TranslationResult → TranslationResult)
    (history : List TranslationResult) : List TranslationResult :=
  history.map fun item => if item.id = targetId then f item else item

/-- The placeholder entry constructed synchronously on arrival of a
selection (`TranslationPanel.tsx:51-58`): empty `translatedText`, source
text for text artifacts, the literal placeholder
`"Reading text from image..."` for image artifacts. -/
def pendingRecord (sel : SelectionData) (now : Nat) : TranslationResult where
  id := sel.id
  type := sel.type
  originalText :=
    if sel.type = SelType.text then sel.content else "Reading text from image..."
  translatedText := ""
  imageUrl := if sel.type = SelType.image then some sel.content else none
  timestamp := now
  explanationText := none
  searchSources := none

/-- The synchronous arrival step (`TranslationPanel.tsx:61`): prepend the
pending record to the history, newest first. -/
def arriveStep (sel : SelectionData) (now : Nat)
    (history : List TranslationResult) : List TranslationResult :=
  pendingRecord sel now :: history

/-- The error sentinel chosen by the pipeline's catch block
(`TranslationPanel.tsx:85-90`): the rate-limit sentinel when the failure
message contains `'429'`, `'quota'` or `'exhausted'`, the generic failure
sentinel otherwise.  Note: unlike `isQuotaError`, this check never looks
at `error.status`. -/
def panelErrorMessage (err : JsError) : String :=
  if strContains err.message "429" || strContains err.message "quota" ||
      strContains err.message "exhausted" then
    "Usage limit reached. Please wait a moment and try again."
  else
    "Translation failed. Please try again."

/-- Success reconciliation (`TranslationPanel.tsx:77-81`): fill the record
with the returned source/result texts. -/
def fillResult (targetId : Nat) (orig trans : String)
    (history : List TranslationResult) : List TranslationResult :=
  updateById targetId
    (fun item => { item with originalText := orig, translatedText := trans }) history

/-- Failure reconciliation (`TranslationPanel.tsx:92-96`): set only the
record's `translatedText` to the sentinel message. -/
def failResult (targetId : Nat) (msg : String)
    (history : List TranslationResult) : List TranslationResult :=
  updateById targetId (fun item => { item with translatedText := msg }) history

/-- Deep-dive reconciliation (`TranslationPanel.tsx:133-137`): set the
record's explanation text and search sources. -/
def setExplanationFields (targetId : Nat) (expl : String)
    (sources : List (String × String))
    (history : List TranslationResult) : List TranslationResult :=
  updateById targetId
    (fun item => { item with explanationText := some expl,
                             searchSources := some sources }) history

/-- Embedding of one run of `processNewSelection`
(`TranslationPanel.tsx:45-100`): synchronously prepend the pending record,
then dispatch exactly one external call by artifact kind and reconcile its
outcome into the record with the matching id.  The outcomes of the two
possible provider calls (`analyzeImageRegion`, `translateText`) are passed
in as values. -/
def processNewSelection (sel : SelectionData) (now : Nat)
    (imageCall : Except JsError (String × String))
    (textCall : Except JsError String)
    (history : List TranslationResult) : List TranslationResult :=
  let afterArrival := arriveStep sel now history
  match sel.type with
  | SelType.image =>
    match imageCall with
    | Except.ok p => fillResult sel.id p.1 p.2 afterArrival
    | Except.error err => failResult sel.id (panelErrorMessage err) afterArrival
  | SelType.text =>
    match textCall with
    | Except.ok translated => fillResult sel.id sel.content translated afterArrival
    | Except.error err => failResult sel.id (panelErrorMessage err) afterArrival

/-- The history mutations the panel ever performs, in the order they hit
the store: an arrival prepend, a success fill, a failure sentinel write,
or a deep-dive explanation write. -/
inductive HistOp
  | arrive (sel : SelectionData) (now : Nat)
  | fill (targetId : Nat) (orig trans : String)
  | fail (targetId : Nat) (msg : String)
  | explain (targetId : Nat) (expl : String) (sources : List (String × String))
deriving DecidableEq, Repr

/-- Apply one history mutation. -/
def applyOp (history : List TranslationResult) : HistOp → List TranslationResult
  | HistOp.arrive sel now => arriveStep sel now history
  | HistOp.fill targetId orig translated => fillResult targetId orig translated history
  | HistOp.fail targetId msg => failResult targetId msg history
  | HistOp.explain targetId expl sources =>
    setExplanationFields targetId expl sources history

/-- Apply a sequence of history mutations, oldest first. -/
def applyOps (ops : List HistOp) (history : List TranslationResult) :
    List TranslationResult :=
  ops.foldl applyOp history

/-- The ids of the arrival operations of a mutation sequence, in arrival
order. -/
def arriveIds : List HistOp → List Nat
  | [] => []
  | HistOp.arrive sel _ :: rest => sel.id :: arriveIds rest
  | HistOp.fill _ _ _ :: rest => arriveIds rest
  | HistOp.fail _ _ :: rest => arriveIds rest
  | HistOp.explain _ _ _ :: rest => arriveIds rest

theorem updateById_map_id (targetId : Nat)
    (f : TranslationResult → TranslationResult)
    (history : List TranslationResult) (hf : ∀ r, (f r).id = r.id) :
    (updateById targetId f history).map (fun r => r.id) =
      history.map (fun r => r.id) := by
  unfold updateById
  rw [List.map_map]
  apply List.map_congr_left
  intro x _
  by_cases h : x.id = targetId <;> simp [h, hf x]

theorem applyOp_ids_of_update (history : List TranslationResult) (op : HistOp)
    (hop : ∀ sel now, op ≠ HistOp.arrive sel now) :
    (applyOp history op).map (fun r => r.id) = history.map (fun r => r.id) := by
  cases op with
  | arrive sel now => exact absurd rfl (hop sel now)
  | fill targetId orig translated =>
    show (fillResult targetId orig translated history).map (fun r => r.id) =
      history.map (fun r => r.id)
    exact updateById_map_id targetId
      (fun item => { item with originalText := orig, translatedText := translated })
      history (fun r => rfl)
  | fail targetId msg =>
    show (failResult targetId msg history).map (fun r => r.id) =
      history.map (fun r => r.id)
    exact updateById_map_id targetId
      (fun item => { item with translatedText := msg }) history (fun r => rfl)
  | explain targetId expl sources =>
    show (setExplanationFields targetId expl sources history).map (fun r => r.id) =
      history.map (fun r => r.id)
    exact updateById_map_id targetId
      (fun item => { item with explanationText := some expl,
                               searchSources := some sources })
      history (fun r => rfl)

theorem applyOps_ids (ops : List HistOp) :
    ∀ history : List TranslationResult,
      (applyOps ops history).map (fun r => r.id) =
        (arriveIds ops).reverse ++ history.map (fun r => r.id) := by
  induction ops with
  | nil => intro history; simp [applyOps, arriveIds]
  | cons op rest ih =>
    intro history
    have hfold : applyOps (op :: rest) history = applyOps rest (applyOp history op) := rfl
    rw [hfold, ih (applyOp history op)]
    cases op with
    | arrive sel now =>
      simp [applyOp, arriveStep, arriveIds, pendingRecord, List.append_assoc]
    | fill targetId orig translated =>
      rw [applyOp_ids_of_update history _ (fun s n h => by cases h)]
      simp [arriveIds]
    | fail targetId msg =>
      rw [applyOp_ids_of_update history _ (fun s n h => by cases h)]
      simp [arriveIds]
    | explain targetId expl sources =>
      rw [applyOp_ids_of_update history _ (fun s n h => by cases h)]
      simp [arriveIds]

/-- Claim C4: for every sequence of history mutations whose arrival ids
are pairwise distinct, the store resulting from an empty start contains
exactly one record per arrived artifact id, ordered newest-first by
insertion (latest arrival at the head); fill/fail/explain updates only
mutate records in place and never add, remove or reorder them. -/
theorem C4_history_unique_newest_first (ops : List HistOp)
    (hnd : (arriveIds ops).Nodup) :
    (applyOps ops []).map (fun r => r.id) = (arriveIds ops).reverse ∧
    ∀ i ∈ arriveIds ops, ((applyOps ops []).map (fun r => r.id)).count i = 1 := by
  have h1 := applyOps_ids ops []
  simp only [List.map_nil, List.append_nil] at h1
  refine ⟨h1, ?_⟩
  intro i hi
  rw [h1, List.count_reverse]
  exact List.count_eq_one_of_mem hnd hi

/-- A concrete five-step pipeline run: two arrivals (ids 1 and 2), a
success fill, a failure write and a deep-dive write. -/
def sampleOps : List HistOp :=
  [HistOp.arrive (SelectionData.mk SelType.text "hello" 1) 10,
   HistOp.arrive (SelectionData.mk SelType.image "imgdata" 2) 11,
   HistOp.fill 1 "hello" "nihao",
   HistOp.fail 2 "Translation failed. Please try again.",
   HistOp.explain 1 "background" [("title", "uri")]]

/-- Concrete instance of `C4_history_unique_newest_first` on `sampleOps`. -/
theorem C4_history_unique_newest_first_witness :
    (arriveIds sampleOps).Nodup ∧
    ((applyOps sampleOps []).map (fun r => r.id) = (arriveIds sampleOps).reverse ∧
     ∀ i ∈ arriveIds sampleOps,
       ((applyOps sampleOps []).map (fun r => r.id)).count i = 1) :=
  ⟨by decide, C4_history_unique_newest_first sampleOps (by decide)⟩

/-- Claim C5 counterexample: the pending record prepended for an image
artifact carries the placeholder source text
`"Reading text from image..."`, not the placeholder `"extracting…"`
stated by the claim. -/
theorem C5_placeholder_counterexample :
    (pendingRecord (SelectionData.mk SelType.image "imgdata" 7) 0).originalText =
      "Reading text from image..." ∧
    (pendingRecord (SelectionData.mk SelType.image "imgdata" 7) 0).originalText ≠
      "extracting…" :=
  ⟨rfl, by decide⟩

/-- Claim C5 (amended): on arrival the pipeline synchronously prepends a
pending record whose `translatedText` is empty, before the external call —
the full run is an id-targeted `updateById` applied to the prepended
store; for a text artifact the pending source text equals the selected
text exactly, and for an image artifact it is the placeholder
`"Reading text from image..."`. -/
theorem C5_pending_prepend (sel : SelectionData) (now : Nat)
    (imageCall : Except JsError (String × String))
    (textCall : Except JsError String)
    (history : List TranslationResult) :
    arriveStep sel now history = pendingRecord sel now :: history ∧
    (pendingRecord sel now).translatedText = "" ∧
    (sel.type = SelType.text →
      (pendingRecord sel now).originalText = sel.content) ∧
    (sel.type = SelType.image →
      (pendingRecord sel now).originalText = "Reading text from image...") ∧
    ∃ f, processNewSelection sel now imageCall textCall history =
      updateById sel.id f (arriveStep sel now history) := by
  refine ⟨rfl, rfl, ?_, ?_, ?_⟩
  · intro ht
    simp [pendingRecord, ht]
  · intro ht
    simp [pendingRecord, ht]
  · cases hs : sel.type with
    | text =>
      cases textCall with
      | ok translated =>
        exact ⟨fun item =>
            { item with originalText := sel.content, translatedText := translated },
          by simp [processNewSelection, hs, fillResult]⟩
      | error err =>
        exact ⟨fun item => { item with translatedText := panelErrorMessage err },
          by simp [processNewSelection, hs, failResult]⟩
    | image =>
      cases imageCall with
      | ok p =>
        exact ⟨fun item =>
            { item with originalText := p.1, translatedText := p.2 },
          by simp [processNewSelection, hs, fillResult]⟩
      | error err =>
        exact ⟨fun item => { item with translatedText := panelErrorMessage err },
          by simp [processNewSelection, hs, failResult]⟩

/-- Concrete instance of `C5_pending_prepend` for a text artifact. -/
theorem C5_pending_prepend_witness :
    arriveStep (SelectionData.mk SelType.text "hello" 3) 10 [] =
      pendingRecord (SelectionData.mk SelType.text "hello" 3) 10 :: [] ∧
    (pendingRecord (SelectionData.mk SelType.text "hello" 3) 10).translatedText = "" ∧
    ((SelectionData.mk SelType.text "hello" 3).type = SelType.text →
      (pendingRecord (SelectionData.mk SelType.text "hello" 3) 10).originalText =
        (SelectionData.mk SelType.text "hello" 3).content) ∧
    ((SelectionData.mk SelType.text "hello" 3).type = SelType.image →
      (pendingRecord (SelectionData.mk SelType.text "hello" 3) 10).originalText =
        "Reading text from image...") ∧
    ∃ f, processNewSelection (SelectionData.mk SelType.text "hello" 3) 10
        (Except.ok ("a", "b")) (Except.ok "nihao") [] =
      updateById 3 f
        (arriveStep (SelectionData.mk SelType.text "hello" 3) 10 []) :=
  C5_pending_prepend (SelectionData.mk SelType.text "hello" 3) 10
    (Except.ok ("a", "b")) (Except.ok "nihao") []

/-- Claim C6: `updateById` with an id that no record of the store carries
leaves the store completely unchanged: same length, same order, same
records, and no new record is created. -/
theorem C6_updateById_absent_noop (targetId : Nat)
    (f : TranslationResult → TranslationResult)
    (history : List TranslationResult)
    (habs : ∀ r ∈ history, r.id ≠ targetId) :
    updateById targetId f history = history := by
  unfold updateById
  conv_rhs => rw [← List.map_id history]
  apply List.map_congr_left
  intro x hx
  simp [habs x hx]

/-- A concrete two-record store with ids 1 and 2. -/
def sampleHistory : List TranslationResult :=
  [pendingRecord (SelectionData.mk SelType.text "hello" 1) 10,
   pendingRecord (SelectionData.mk SelType.image "imgdata" 2) 11]

/-- Concrete instance of `C6_updateById_absent_noop`: updating absent id 5
leaves `sampleHistory` untouched. -/
theorem C6_updateById_absent_noop_witness :
    (∀ r ∈ sampleHistory, r.id ≠ 5) ∧
    updateById 5 (fun item => { item with translatedText := "x" }) sampleHistory =
      sampleHistory :=
  ⟨by decide,
   C6_updateById_absent_noop 5 (fun item => { item with translatedText := "x" })
     sampleHistory (by decide)⟩

/-- Claim C7 counterexample: a provider failure carrying `status = 429`
but no rate-limit marker in its message is classified transient by the
retry layer (`isQuotaError`), yet the pipeline writes the generic failure
sentinel for it, not the distinguished rate-limit sentinel. -/
theorem C7_status_transient_counterexample :
    isQuotaError (JsError.mk "Internal error" (some 429)) = true ∧
    (processNewSelection (SelectionData.mk SelType.text "hello" 1) 0
        (Except.error (JsError.mk "Internal error" (some 429)))
        (Except.error (JsError.mk "Internal error" (some 429))) []).map
      (fun r => r.translatedText) = ["Translation failed. Please try again."] := by
  constructor
  · decide
  · decide

/-- Claim C7 (amended): when the provider call for an artifact ultimately
fails with error `err`, the pipeline sets the matching record's
`translatedText` to the rate-limit sentinel exactly when `err.message`
contains `'429'`, `'quota'` or `'exhausted'` (so a message containing
"quota" yields the rate-limit sentinel), and to the generic failure
sentinel otherwise — a failure transient only through `status === 429`
receives the generic sentinel; the record's source text is left as last
known. -/
theorem C7_failure_sentinel (sel : SelectionData) (now : Nat)
    (history : List TranslationResult) (err : JsError)
    (imageCall : Except JsError (String × String))
    (textCall : Except JsError String)
    (himg : sel.type = SelType.image → imageCall = Except.error err)
    (htxt : sel.type = SelType.text → textCall = Except.error err) :
    (processNewSelection sel now imageCall textCall history).head? =
      some { pendingRecord sel now with translatedText := panelErrorMessage err } ∧
    panelErrorMessage err =
      (if strContains err.message "429" || strContains err.message "quota" ||
          strContains err.message "exhausted" then
        "Usage limit reached. Please wait a moment and try again."
      else "Translation failed. Please try again.") := by
  refine ⟨?_, rfl⟩
  obtain ⟨ty, content, selId⟩ := sel
  cases ty with
  | text =>
    rw [htxt rfl]
    simp [processNewSelection, failResult, updateById, arriveStep, pendingRecord]
  | image =>
    rw [himg rfl]
    simp [processNewSelection, failResult, updateById, arriveStep, pendingRecord]

/-- Concrete instance of `C7_failure_sentinel`: a text-artifact run whose
call fails with a message containing "quota" fills the record with the
rate-limit sentinel. -/
theorem C7_failure_sentinel_witness :
    (((SelectionData.mk SelType.text "hello" 1).type = SelType.image →
        (Except.error (JsError.mk "quota exceeded" none) :
          Except JsError (String × String)) =
          Except.error (JsError.mk "quota exceeded" none)) ∧
     ((SelectionData.mk SelType.text "hello" 1).type = SelType.text →
        (Except.error (JsError.mk "quota exceeded" none) :
          Except JsError String) =
          Except.error (JsError.mk "quota exceeded" none))) ∧
    ((processNewSelection (SelectionData.mk SelType.text "hello" 1) 0
        (Except.error (JsError.mk "quota exceeded" none))
        (Except.error (JsError.mk "quota exceeded" none)) []).head? =
      some { pendingRecord (SelectionData.mk SelType.text "hello" 1) 0 with
              translatedText := panelErrorMessage (JsError.mk "quota exceeded" none) } ∧
     panelErrorMessage (JsError.mk "quota exceeded" none) =
      (if strContains (JsError.mk "quota exceeded" none).message "429" ||
          strContains (JsError.mk "quota exceeded" none).message "quota" ||
          strContains (JsError.mk "quota exceeded" none).message "exhausted" then
        "Usage limit reached. Please wait a moment and try again."
      else "Translation failed. Please try again.")) ∧
    panelErrorMessage (JsError.mk "quota exceeded" none) =
      "Usage limit reached. Please wait a moment and try again." :=
  ⟨⟨fun _ => rfl, fun _ => rfl⟩,
   C7_failure_sentinel (SelectionData.mk SelType.text "hello" 1) 0 []
     (JsError.mk "quota exceeded" none)
     (Except.error (JsError.mk "quota exceeded" none))
     (Except.error (JsError.mk "quota exceeded" none))
     (fun _ => rfl) (fun _ => rfl),
   by decide⟩

/-- Capture modes of the viewer, the `'text' | 'box'` mode state of
`PDFViewer.tsx`. -/
inductive Mode
  | text
  | box
deriving DecidableEq, Repr

/-- A page-relative pointer position (JavaScript numbers modelled as
rationals). -/
structure PagePos where
  x : ℚ
  y : ℚ
deriving DecidableEq, Repr

/-- Geometry of the backing canvas: intrinsic raster resolution
(`canvas.width/height`) and displayed size (`offsetWidth/offsetHeight`). -/
structure CanvasGeom where
  width : ℚ
  height : ℚ
  offsetWidth : ℚ
  offsetHeight : ℚ
deriving DecidableEq, Repr

/-- The crop rectangle, in backing-resolution pixels, of an emitted image
artifact. -/
structure CropRect where
  x : ℚ
  y : ℚ
  w : ℚ
  h : ℚ
deriving DecidableEq, Repr

/-- Embedding of `handleMouseUp` in `PDFViewer.tsx:65-95`.  Returns the
crop rectangle passed to `drawImage`/`onImageCapture` when an artifact is
emitted, `none` otherwise.  The guards mirror the source order: box mode
and an active drag; rectangle at least 10×10 page pixels
(`if (w < 10 || h < 10) return`); a backing canvas and a 2d context. -/
def handleMouseUp (mode : Mode) (isSelecting : Bool)
    (startPos currentPos : PagePos)
    (canvas : Option CanvasGeom) (ctxOk : Bool) : Option CropRect :=
  if mode ≠ Mode.box ∨ isSelecting = false then none
  else
    let x := min startPos.x currentPos.x
    let y := min startPos.y currentPos.y
    let w := |currentPos.x - startPos.x|
    let h := |currentPos.y - startPos.y|
    if w < 10 ∨ h < 10 then none
    else
      match canvas with
      | none => none
      | some c =>
        if ctxOk then
          let scaleX := c.width / c.offsetWidth
          let scaleY := c.height / c.offsetHeight
          some ⟨x * scaleX, y * scaleY, w * scaleX, h * scaleY⟩
        else none

/-- Claim C3: in Box mode, a completed pointer-down-to-pointer-up drag
(with the backing canvas and its 2d context available) emits exactly one
image artifact iff both drag dimensions are at least 10 device-independent
pixels; in particular a 5×20 drag emits nothing and a 15×15 drag emits
exactly one artifact. -/
theorem C3_box_capture_threshold :
    (∀ (startPos currentPos : PagePos) (c : CanvasGeom),
      (handleMouseUp Mode.box true startPos currentPos (some c) true).isSome ↔
        (10 ≤ |currentPos.x - startPos.x| ∧ 10 ≤ |currentPos.y - startPos.y|)) ∧
    handleMouseUp Mode.box true ⟨0, 0⟩ ⟨5, 20⟩
      (some ⟨100, 100, 100, 100⟩) true = none ∧
    (handleMouseUp Mode.box true ⟨0, 0⟩ ⟨15, 15⟩
      (some ⟨100, 100, 100, 100⟩) true).isSome = true := by
  refine ⟨?_, ?_, ?_⟩
  · intro startPos currentPos c
    simp [handleMouseUp, not_or, not_lt]
  · simp [handleMouseUp]
    norm_num
  · simp [handleMouseUp]
    norm_num

/-- State of the embedded `LiveSession` controller
(`geminiService.ts:179-214`): the stored session handle, if any, and the
sequence of statuses reported through `onStatusChange`, in order. -/
structure LiveSessionState where
  session : Option Nat
  statusLog : List String
deriving DecidableEq, Repr

/-- Embedding of `LiveSession.connect` (`geminiService.ts:187-206`).
`freshHandle` stands for the session object a successful
`ai.live.connect` resolves with; `connectSucceeds` tells whether that
await resolves or throws.  The method always reports "Connecting..." and
attempts a fresh connection — there is no guard against an already stored
session — overwriting `this.session` on success and reporting
"Connection Failed" (keeping the old handle) on failure. -/
def LiveSession.connect (s : LiveSessionState) (freshHandle : Nat)
    (connectSucceeds : Bool) : LiveSessionState :=
  let s1 : LiveSessionState := ⟨s.session, s.statusLog ++ ["Connecting..."]⟩
  if connectSucceeds then
    ⟨some freshHandle, s1.statusLog ++ ["Connected"]⟩
  else
    ⟨s1.session, s1.statusLog ++ ["Connection Failed"]⟩

/-- Embedding of `LiveSession.disconnect` (`geminiService.ts:208-213`):
drop the handle and report "Disconnected". -/
def LiveSession.disconnect (s : LiveSessionState) : LiveSessionState :=
  ⟨none, s.statusLog ++ ["Disconnected"]⟩

/-- Claim C8 counterexample: after a successful `connect()` that stored
session handle 1, a second `connect()` is not a no-op — the state changes:
"Connecting..." is reported again and the stored handle is replaced by the
newly opened session (handle 2). -/
theorem C8_second_connect_counterexample :
    LiveSession.connect (LiveSession.connect ⟨none, []⟩ 1 true) 2 true ≠
      LiveSession.connect ⟨none, []⟩ 1 true ∧
    (LiveSession.connect (LiveSession.connect ⟨none, []⟩ 1 true) 2 true).session =
      some 2 := by
  constructor
  · decide
  · decide

/-- Claim C8 (amended): `connect()` never checks for an existing session.
Called in any state — connected or not — it reports "Connecting..." and
dials a fresh session: on success it stores the new handle (replacing and
dropping, not closing, any previous one, so only one handle is retained),
on failure it keeps the previous handle and reports "Connection Failed". -/
theorem C8_connect_not_idempotent (s : LiveSessionState) (freshHandle : Nat) :
    (LiveSession.connect s freshHandle true).session = some freshHandle ∧
    (LiveSession.connect s freshHandle true).statusLog =
      s.statusLog ++ ["Connecting...", "Connected"] ∧
    (LiveSession.connect s freshHandle false).session = s.session ∧
    (LiveSession.connect s freshHandle false).statusLog =
      s.statusLog ++ ["Connecting...", "Connection Failed"] := by
  refine ⟨rfl, ?_, rfl, ?_⟩ <;> simp [LiveSession.connect]

/-- Embedding of the global regex replace inside `cleanJson`
(`geminiService.ts:8-10`).  Scanning left to right, the alternation first
tries "```json" with an optional trailing newline, then an optional
leading newline followed by "```"; every match is removed. -/
def stripFences : List Char → List Char
  | [] => []
  | c :: rest =>
    if isPrefixChars ("```json\n".data) (c :: rest) then
      stripFences ((c :: rest).drop 8)
    else if isPrefixChars ("```json".data) (c :: rest) then
      stripFences ((c :: rest).drop 7)
    else if isPrefixChars ("\n```".data) (c :: rest) then
      stripFences ((c :: rest).drop 4)
    else if isPrefixChars ("```".data) (c :: rest) then
      stripFences ((c :: rest).drop 3)
    else c :: stripFences rest
termination_by l => l.length
decreasing_by
  all_goals simp [List.length_drop]
  all_goals omega

/-- Embedding of `cleanJson` (`geminiService.ts:8-10`): strip the markdown
fences, then trim surrounding whitespace. -/
def cleanJson (s : String) : String := (String.mk (stripFences s.data)).trim

/-- The error thrown by `analyzeImageRegion` when the model returns no
text (`geminiService.ts:102`). -/
def noResponseErr : JsError := ⟨"No response from model", none⟩

/-- Embedding of the response handling inside `analyzeImageRegion`'s
wrapped operation (`geminiService.ts:101-113`): a missing or empty
`response.text` throws `noResponseErr`; otherwise the cleaned text is
parsed as JSON (`JSON.parse`, modelled by the external oracle `parse`
returning the structured (originalText, translatedText) pair); on parse
failure the raw text is returned as the translation with the sentinel
source text "OCR Output (Raw)". -/
def analyzeImageResponse (parse : String → Option (String × String)) :
    Option String → Except JsError (String × String)
  | none => Except.error noResponseErr
  | some t =>
    if t.isEmpty then Except.error noResponseErr
    else
      match parse (cleanJson t) with
      | some p => Except.ok p
      | none => Except.ok ("OCR Output (Raw)", t)

/-- Embedding of `analyzeImageRegion` (`geminiService.ts:54-115`) past the
API-key guard: the provider's raw `generateContent` outcomes per attempt
(its `response.text` on success) feed the response handler, all wrapped in
`retryOperation` with the default 3 retries / 2000 ms. -/
def analyzeImageRegion (parse : String → Option (String × String))
    (responses : Nat → Except JsError (Option String)) :
    RetryTrace (String × String) :=
  retryOperation (fun n =>
    match responses n with
    | Except.error err => Except.error err
    | Except.ok t => analyzeImageResponse parse t) 0 3 2000

/-- Claim C9: when the provider's response to the combined OCR+translate
call is a non-empty text that the JSON parser cannot parse as the expected
structured output, the image-analysis operation still resolves
successfully — never rejects for this reason — returning the raw response
text as the translated result together with the sentinel source text
"OCR Output (Raw)", with no retries spent. -/
theorem C9_parse_fallback (parse : String → Option (String × String))
    (responses : Nat → Except JsError (Option String)) (t : String)
    (h1 : responses 0 = Except.ok (some t)) (h2 : t.isEmpty = false)
    (h3 : parse (cleanJson t) = none) :
    (analyzeImageRegion parse responses).result =
      Except.ok ("OCR Output (Raw)", t) ∧
    (analyzeImageRegion parse responses).waits = [] := by
  have hop : (fun n => match responses n with
      | Except.error err => Except.error err
      | Except.ok t2 => analyzeImageResponse parse t2) 0 =
      Except.ok (("OCR Output (Raw)", t) : String × String) := by
    simp only [h1]
    simp [analyzeImageResponse, h2, h3]
  unfold analyzeImageRegion
  rw [retryOperation_ok _ 0 3 2000 _ hop]
  exact ⟨rfl, rfl⟩

/-- Concrete instance of `C9_parse_fallback`: response "hello" with an
always-failing parser resolves to ("OCR Output (Raw)", "hello"). -/
theorem C9_parse_fallback_witness :
    (fun _ : Nat => (Except.ok (some "hello") : Except JsError (Option String))) 0 =
      Except.ok (some "hello") ∧
    ("hello" : String).isEmpty = false ∧
    (fun _ : String => (none : Option (String × String))) (cleanJson "hello") = none ∧
    ((analyzeImageRegion (fun _ => none)
        (fun _ => Except.ok (some "hello"))).result =
      Except.ok ("OCR Output (Raw)", "hello") ∧
     (analyzeImageRegion (fun _ => none)
        (fun _ => Except.ok (some "hello"))).waits = []) :=
  ⟨rfl, rfl, rfl,
   C9_parse_fallback (fun _ => none) (fun _ => Except.ok (some "hello"))
     "hello" rfl rfl rfl⟩

/-- JavaScript `t || d` on the optional response text: the default is used
when the text is undefined or empty. -/
def jsOrDefault (t : Option String) (d : String) : String :=
  match t with
  | none => d
  | some s => if s.isEmpty then d else s

/-- Embedding of `translateText` (`geminiService.ts:34-51`) past the
API-key guard: the provider's `generateContent` outcomes per attempt, with
the success value mapped through `response.text || "Translation failed."`,
wrapped in `retryOperation` with the defaults. -/
def translateText (responses : Nat → Except JsError (Option String)) :
    RetryTrace String :=
  retryOperation (fun n =>
    match responses n with
    | Except.error err => Except.error err
    | Except.ok t => Except.ok (jsOrDefault t "Translation failed.")) 0 3 2000

/-- Claim C10: when the text-translation provider call succeeds but its
response text is empty or absent, `translateText` resolves successfully —
it does not reject — with the literal string "Translation failed.", so a
failure-looking sentinel flows through the success path without any error
having been raised. -/
theorem C10_empty_success_sentinel
    (responses : Nat → Except JsError (Option String))
    (t : Option String) (h1 : responses 0 = Except.ok t)
    (h2 : t = none ∨ t = some "") :
    (translateText responses).result = Except.ok "Translation failed." ∧
    (translateText responses).waits = [] := by
  have hop : (fun n => match responses n with
      | Except.error err => Except.error err
      | Except.ok t2 => Except.ok (jsOrDefault t2 "Translation failed.")) 0 =
      Except.ok ("Translation failed." : String) := by
    cases h2 with
    | inl h =>
      simp only [h1, h]
      rfl
    | inr h =>
      simp only [h1, h]
      rfl
  unfold translateText
  rw [retryOperation_ok _ 0 3 2000 _ hop]
  exact ⟨rfl, rfl⟩

/-- Concrete instance of `C10_empty_success_sentinel`: a successful call
returning the empty string resolves with "Translation failed.". -/
theorem C10_empty_success_sentinel_witness :
    (fun _ : Nat => (Except.ok (some "") : Except JsError (Option String))) 0 =
      Except.ok (some "") ∧
    ((some "" : Option String) = none ∨ (some "" : Option String) = some "") ∧
    ((translateText (fun _ => Except.ok (some ""))).result =
      Except.ok "Translation failed." ∧
     (translateText (fun _ => Except.ok (some ""))).waits = []) :=
  ⟨rfl, Or.inr rfl,
   C10_empty_success_sentinel (fun _ => Except.ok (some "")) (some "")
     rfl (Or.inr rfl)⟩
